import Mathlib

/-!
Verification of the restream process supervisor of datarhei-core.

The repository snapshot under examination contains the test suite of the
restream package (src/restream/restream_test.go) together with auxiliary
HTTP glue, but not the implementation files of the restream package itself
(restream.go, the replace package, the app config types).  Every definition
below that embeds such a missing function is therefore modelled from the
specification (spec.md), with its observable behaviour pinned down by the
tests that are present in the source tree; the doc comment of each such
definition names the missing source.  All definitions are executable.
-/

namespace Restream

/-! Character-list utilities.  The Go implementation works on strings; we
work on explicit lists of characters so that every operation reduces well
inside the kernel. -/

/-- Split a character list at the first occurrence of the separator.
Returns none when the separator does not occur.  Models strings.Cut /
strings.SplitN(s, sep, 2) from the Go standard library. -/
def splitAtFirst (sep : Char) : List Char → Option (List Char × List Char)
  | [] => none
  | c :: rest =>
    if c = sep then some ([], rest)
    else (splitAtFirst sep rest).map (fun p => (c :: p.1, p.2))

/-- Split a character list on every occurrence of the separator.  Models
strings.Split from the Go standard library. -/
def splitOnChar (sep : Char) : List Char → List (List Char)
  | [] => [[]]
  | c :: rest =>
    let r := splitOnChar sep rest
    if c = sep then [] :: r
    else
      match r with
      | [] => [[c]]
      | h :: t => (c :: h) :: t

/-- Join character lists with a separator character.  Models strings.Join. -/
def intercalateChar (sep : Char) : List (List Char) → List Char
  | [] => []
  | [x] => x
  | x :: y :: xs => x ++ sep :: intercalateChar sep (y :: xs)

/-- Whether pat occurs as a contiguous substring of s.  Models
strings.Contains. -/
def isSubstring (pat : List Char) : List Char → Bool
  | [] => pat.isEmpty
  | c :: rest => pat.isPrefixOf (c :: rest) || isSubstring pat rest

/-- Replace every non-overlapping occurrence of pat by rep, scanning left to
right; the replacement text is not rescanned.  Fuel-indexed so that the
recursion is structural; fuel equal to the length of the subject is always
sufficient.  Models strings.ReplaceAll. -/
def replaceAllFuel (pat rep : List Char) : Nat → List Char → List Char
  | 0, s => s
  | _ + 1, [] => []
  | n + 1, c :: rest =>
    if pat.isPrefixOf (c :: rest) && !pat.isEmpty then
      rep ++ replaceAllFuel pat rep n ((c :: rest).drop pat.length)
    else c :: replaceAllFuel pat rep n rest

/-- Replace every occurrence of pat by rep in s.  Models strings.ReplaceAll. -/
def replaceAllL (pat rep s : List Char) : List Char :=
  replaceAllFuel pat rep s.length s

/-! Glob matching.  Modelled from the spec: GetProcessIDs matches ids and
references against globs where a star matches any sequence and a question
mark matches a single character (spec section 4.1); the glob library used by
the Go code is not under src/. -/

/-- Fuel-indexed glob matcher; a star matches any (possibly empty) sequence
of characters, a question mark matches exactly one character, any other
pattern character matches itself.  Fuel equal to the sum of the lengths of
pattern and subject plus one is always sufficient. -/
def globMatchFuel : Nat → List Char → List Char → Bool
  | 0, _, _ => false
  | _ + 1, [], [] => true
  | _ + 1, [], _ :: _ => false
  | n + 1, '*' :: p, s =>
    globMatchFuel n p s ||
      (match s with
       | [] => false
       | _ :: s' => globMatchFuel n ('*' :: p) s')
  | _ + 1, '?' :: _, [] => false
  | n + 1, '?' :: p, _ :: s => globMatchFuel n p s
  | _ + 1, _ :: _, [] => false
  | n + 1, c :: p, a :: s => c == a && globMatchFuel n p s

/-- Glob match on strings. -/
def globMatch (pat s : String) : Bool :=
  globMatchFuel (pat.toList.length + s.toList.length + 1) pat.toList s.toList

/-- Separator-aware glob match used for placeholder names: the pattern and
the name are split on the colon and matched segment by segment, so that a
star never crosses a colon (the pattern fs:* matches fs:disk but not
diskfs).  Modelled from the spec: the placeholder table lookup of the
template resolver (spec section 4.3); the glob library is not under src/. -/
def globMatchSep (pat name : List Char) : Bool :=
  let ps := splitOnChar ':' pat
  let ns := splitOnChar ':' name
  ps.length == ns.length &&
    (List.zip ps ns).all (fun pn =>
      globMatchFuel (pn.1.length + pn.2.length + 1) pn.1 pn.2)

/-! The data model (spec section 3).  Modelled from the spec: the app.Config
and app.ConfigIO types of the restream/app package are not under src/; their
fields are taken from spec section 3 and from the composite literals in
src/restream/restream_test.go. -/

/-- One cleanup rule of an output (app.ConfigIOCleanup). -/
structure ConfigIOCleanup where
  pattern : String
  maxFiles : Nat
  maxFileAge : Nat
  purgeOnDelete : Bool
deriving DecidableEq, Repr, Inhabited

/-- One input or output of a process config (app.ConfigIO). -/
structure ConfigIO where
  id : String
  address : String
  options : List String
  cleanup : List ConfigIOCleanup := []
deriving DecidableEq, Repr, Inhabited

/-- A user-authored process configuration (app.Config). -/
structure AppConfig where
  id : String
  reference : String := ""
  ffversion : String := ""
  input : List ConfigIO
  output : List ConfigIO
  options : List String
  reconnect : Bool := false
  reconnectDelay : Nat := 0
  autostart : Bool := false
  staleTimeout : Nat := 0
deriving DecidableEq, Repr, Inhabited

/-- The operator-requested desired state of a task (spec glossary: Order). -/
inductive ProcOrder where
  | start
  | stop
deriving DecidableEq, Repr, Inhabited

/-! The template resolver (spec section 4.3).  Modelled from the spec: the
replace package (replace.Replacer, RegisterTemplateFunc, Replace) is not
under src/; the behaviour is pinned down by TestReplacer in
src/restream/restream_test.go.  Placeholders have the form \x7bname\x7d or
\x7bname,arg=val,...\x7d; a registered template function maps a name to a
template string that may contain \x7bargN\x7d markers, which are filled from
the caller arguments merged over the defaults; dollar variables are
substituted inside those argument values only. -/

/-- A registered template function together with its default arguments
(replace.Replacer template table entry). -/
structure TemplateEntry where
  name : String
  fn : AppConfig → String → String
  defaults : List (String × String)

/-- Substitute every dollar variable of vars inside a value: each pair
(name, v) rewrites the token formed of a dollar sign followed by name to v.
Models the vars loop of replace.Replacer.Replace. -/
def expandVars (vars : List (String × String)) (v : List Char) : List Char :=
  vars.foldl (fun acc kv => replaceAllL ('$' :: kv.1.toList) kv.2.toList acc) v

/-- Parameter lookup with later entries taking precedence, so that caller
arguments appended after the defaults override them. -/
def lookupParam (p : List (String × String)) (k : String) : Option String :=
  (p.reverse.find? (fun kv => kv.1 == k)).map (fun kv => kv.2)

/-- Parse a placeholder argument list of the form k=v,k=v,...; entries
without an equals sign are dropped.  Models the parameter parsing of
replace.Replacer.Replace (strings.Split on the comma, then a cut at the
first equals sign). -/
def parseParams (params : List Char) : List (String × String) :=
  (splitOnChar ',' params).filterMap (fun kv =>
    match splitAtFirst '=' kv with
    | none => none
    | some kv2 => some (kv2.1.asString, kv2.2.asString))

/-- Whether a character may appear in an argument marker inside a template
(lower-case letters only, as in the template marker pattern). -/
def isTemplWordChar (c : Char) : Bool :=
  'a' ≤ c && c ≤ 'z'

/-- One pass over a template string replacing every \x7bword\x7d marker
whose word is a known parameter by the parameter value, with dollar
variables expanded inside that value; unknown markers are left literally.
The replacement text is not rescanned.  Fuel-indexed; fuel equal to the
length of the subject is always sufficient.  Models the template marker
pass of replace.Replacer. -/
def substTmplFuel (vars p : List (String × String)) : Nat → List Char → List Char
  | 0, s => s
  | _ + 1, [] => []
  | n + 1, c :: rest =>
    if c = '\x7b' then
      let w := rest.takeWhile isTemplWordChar
      let r2 := rest.drop w.length
      match r2 with
      | '\x7d' :: r3 =>
        if w.isEmpty then c :: substTmplFuel vars p n rest
        else
          match lookupParam p w.asString with
          | some v => expandVars vars v.toList ++ substTmplFuel vars p n r3
          | none => '\x7b' :: (w ++ '\x7d' :: substTmplFuel vars p n r3)
      | _ => c :: substTmplFuel vars p n rest
    else c :: substTmplFuel vars p n rest

/-- Fill the argument markers of a template: when neither caller arguments
nor defaults are present the template is returned unchanged, otherwise the
defaults merged with the parsed caller arguments are substituted for the
markers.  Models compileTemplate of the replace package. -/
def compileTemplate (v params : List Char) (vars defaults : List (String × String)) :
    List Char :=
  if params.isEmpty && defaults.isEmpty then v
  else substTmplFuel vars (defaults ++ parseParams params) v.length v

/-- The replacement text for one matched placeholder: when an explicit value
is supplied it is used verbatim as the template with no defaults; otherwise
the registered template function for the name is evaluated on the config and
section (an unregistered name yields the empty template).  Models the match
body of replace.Replacer.Replace. -/
def phValue (tbl : List TemplateEntry) (cfg : AppConfig) (sect : String)
    (value : String) (vars : List (String × String))
    (params : List Char) (name : List Char) : List Char :=
  if value == "" then
    match tbl.find? (fun e => e.name == name.asString) with
    | some e => compileTemplate (e.fn cfg sect).toList params vars e.defaults
    | none => compileTemplate [] params vars []
  else compileTemplate value.toList params vars []

/-- Whether a character may appear in a placeholder name (lower-case letters
and the colon, as in the placeholder pattern of the replace package). -/
def isNameChar (c : Char) : Bool :=
  ('a' ≤ c && c ≤ 'z') || c = ':'

/-- One pass over a subject string replacing every placeholder whose name
matches the pattern pat (separator-aware glob) by its replacement text;
non-matching placeholders and malformed brace groups are left literally, and
replacement text is never rescanned.  Fuel-indexed; fuel equal to the length
of the subject is always sufficient.  Models the scanning loop of
replace.Replacer.Replace. -/
def scanPH (tbl : List TemplateEntry) (cfg : AppConfig) (sect : String)
    (pat : String) (value : String) (vars : List (String × String)) :
    Nat → List Char → List Char
  | 0, s => s
  | _ + 1, [] => []
  | n + 1, c :: rest =>
    if c = '\x7b' then
      let w := rest.takeWhile isNameChar
      let r2 := rest.drop w.length
      if w.isEmpty then c :: scanPH tbl cfg sect pat value vars n rest
      else
        match r2 with
        | '\x7d' :: r3 =>
          if globMatchSep pat.toList w then
            phValue tbl cfg sect value vars [] w ++ scanPH tbl cfg sect pat value vars n r3
          else '\x7b' :: (w ++ '\x7d' :: scanPH tbl cfg sect pat value vars n r3)
        | ',' :: r4 =>
          match splitAtFirst '\x7d' r4 with
          | none => c :: scanPH tbl cfg sect pat value vars n rest
          | some pr =>
            if globMatchSep pat.toList w then
              phValue tbl cfg sect value vars pr.1 w ++
                scanPH tbl cfg sect pat value vars n pr.2
            else
              '\x7b' :: (w ++ ',' :: (pr.1 ++ '\x7d' :: scanPH tbl cfg sect pat value vars n pr.2))
        | _ => c :: scanPH tbl cfg sect pat value vars n rest
    else c :: scanPH tbl cfg sect pat value vars n rest

/-- Replace every placeholder of s whose name matches pat.  Models
replace.Replacer.Replace on strings. -/
def replacePH (tbl : List TemplateEntry) (cfg : AppConfig) (sect : String)
    (pat value : String) (vars : List (String × String)) (s : String) : String :=
  (scanPH tbl cfg sect pat value vars s.toList.length s.toList).asString

/-- Resolve every placeholder of a config.  Modelled from the spec: the
resolvePlaceholders step of the restream package (spec section 4.3) is not
under src/; the set of placeholder names replaced per section and the
variables in scope are pinned down by TestReplacer: global options resolve
diskfs and fs globs only; input and output ids resolve processid and
reference; addresses additionally resolve the io id, the filesystem
templates and the rtmp and srt templates; io options resolve the io id,
processid, reference and the filesystem templates; cleanup patterns resolve
the io id, processid and reference only. -/
def resolvePlaceholders (tbl : List TemplateEntry) (cfg : AppConfig) : AppConfig :=
  let vars0 := [("processid", cfg.id), ("reference", cfg.reference)]
  let gopts := cfg.options.map (fun o =>
    let o := replacePH tbl cfg "global" "diskfs" "" vars0 o
    replacePH tbl cfg "global" "fs:*" "" vars0 o)
  let inputs := cfg.input.map (fun io =>
    let iid := replacePH tbl cfg "input" "processid" cfg.id [] io.id
    let iid := replacePH tbl cfg "input" "reference" cfg.reference [] iid
    let vars := vars0 ++ [("inputid", iid)]
    let a := replacePH tbl cfg "input" "inputid" iid [] io.address
    let a := replacePH tbl cfg "input" "processid" cfg.id [] a
    let a := replacePH tbl cfg "input" "reference" cfg.reference [] a
    let a := replacePH tbl cfg "input" "diskfs" "" vars a
    let a := replacePH tbl cfg "input" "memfs" "" vars a
    let a := replacePH tbl cfg "input" "fs:*" "" vars a
    let a := replacePH tbl cfg "input" "rtmp" "" vars a
    let a := replacePH tbl cfg "input" "srt" "" vars a
    let opts := io.options.map (fun o =>
      let o := replacePH tbl cfg "input" "inputid" iid [] o
      let o := replacePH tbl cfg "input" "processid" cfg.id [] o
      let o := replacePH tbl cfg "input" "reference" cfg.reference [] o
      let o := replacePH tbl cfg "input" "diskfs" "" vars o
      let o := replacePH tbl cfg "input" "memfs" "" vars o
      replacePH tbl cfg "input" "fs:*" "" vars o)
    { io with id := iid, address := a, options := opts })
  let outputs := cfg.output.map (fun io =>
    let oid := replacePH tbl cfg "output" "processid" cfg.id [] io.id
    let oid := replacePH tbl cfg "output" "reference" cfg.reference [] oid
    let vars := vars0 ++ [("outputid", oid)]
    let a := replacePH tbl cfg "output" "outputid" oid [] io.address
    let a := replacePH tbl cfg "output" "processid" cfg.id [] a
    let a := replacePH tbl cfg "output" "reference" cfg.reference [] a
    let a := replacePH tbl cfg "output" "diskfs" "" vars a
    let a := replacePH tbl cfg "output" "memfs" "" vars a
    let a := replacePH tbl cfg "output" "fs:*" "" vars a
    let a := replacePH tbl cfg "output" "rtmp" "" vars a
    let a := replacePH tbl cfg "output" "srt" "" vars a
    let opts := io.options.map (fun o =>
      let o := replacePH tbl cfg "output" "outputid" oid [] o
      let o := replacePH tbl cfg "output" "processid" cfg.id [] o
      let o := replacePH tbl cfg "output" "reference" cfg.reference [] o
      let o := replacePH tbl cfg "output" "diskfs" "" vars o
      let o := replacePH tbl cfg "output" "memfs" "" vars o
      replacePH tbl cfg "output" "fs:*" "" vars o)
    let cls := io.cleanup.map (fun cl =>
      let p := replacePH tbl cfg "output" "outputid" oid [] cl.pattern
      let p := replacePH tbl cfg "output" "processid" cfg.id [] p
      let p := replacePH tbl cfg "output" "reference" cfg.reference [] p
      { cl with pattern := p })
    { io with id := oid, address := a, options := opts, cleanup := cls })
  { cfg with options := gopts, input := inputs, output := outputs }

/-! Output address validation (spec section 4.2).  Modelled from the spec:
restream.validateOutputAddress is not under src/; the behaviour is pinned
down by TestOutputAddressValidation in src/restream/restream_test.go. -/

/-- Whether an address carries a URL scheme, which the spec identifies by
the presence of the :// separator. -/
def hasSchemeL (s : List Char) : Bool :=
  isSubstring (':' :: '/' :: '/' :: []) s

/-- Lexical cleaning of an absolute slash-separated path: empty and dot
segments are dropped and a dot-dot segment removes the preceding segment.
Models filepath.Clean on an absolute path. -/
def cleanAbsL (p : List Char) : List Char :=
  let comps := (splitOnChar '/' p).foldl
    (fun acc c =>
      if c = [] || c = ['.'] then acc
      else if c = ['.', '.'] then acc.dropLast
      else acc ++ [c])
    []
  '/' :: intercalateChar '/' comps

/-- Absolute form of a filesystem path: an already absolute path is cleaned,
a relative one is joined onto the base directory first.  Models
filepath.Abs with the data root as working directory. -/
def absPathL (basedir p : List Char) : List Char :=
  match p with
  | '/' :: _ => cleanAbsL p
  | _ => cleanAbsL (basedir ++ '/' :: p)

/-- Validate one sub-address of an output address: a file scheme tag is
stripped, a URL is accepted verbatim (no output allowlist is configured in
the tests), a dash becomes the pipe address, and a filesystem path is
resolved to its absolute form, which is accepted with a file scheme tag when
it lies under the device tree or under the data root and rejected
otherwise.  Returns the canonical sub-address, whether it referenced a
filesystem path under the data root, and whether it was rejected. -/
def validateOutputAddressSub (basedir a : List Char) : List Char × Bool × Bool :=
  let a := if "file:".toList.isPrefixOf a then a.drop 5 else a
  if hasSchemeL a then (a, false, false)
  else if a = ['-'] then ("pipe:".toList, false, false)
  else
    let ab := absPathL basedir a
    if "/dev/".toList.isPrefixOf ab then ("file:".toList ++ ab, false, false)
    else if !basedir.isPrefixOf ab then (ab, false, true)
    else ("file:".toList ++ ab, true, false)

/-- Extract a leading bracketed options group from a sub-address, preserved
verbatim. -/
def stripTee (a : List Char) : List Char × List Char :=
  match a with
  | '[' :: rest =>
    (match splitAtFirst ']' rest with
     | none => ([], a)
     | some pr => ('[' :: (pr.1 ++ [']']), pr.2))
  | _ => ([], a)

/-- Validate and canonicalise an output address against the data root.  An
address containing a pipe separator or starting with a bracketed options
group is split on the pipe and every sub-address is validated on its own;
one rejected sub-address rejects the whole address, which is then returned
in its original form.  Returns the canonical address, whether any
sub-address referenced a filesystem path under the data root, and whether
the address was rejected. -/
def validateOutputAddress (address basedir : String) : String × Bool × Bool :=
  let al := address.toList
  let bl := basedir.toList
  if al.contains '|' || (match al with | '[' :: _ => true | _ => false) then
    let results := (splitOnChar '|' al).map (fun s =>
      let pr := stripTee s
      (pr.1, validateOutputAddressSub bl pr.2))
    if results.any (fun r => r.2.2.2) then (address, false, true)
    else
      ((intercalateChar '|' (results.map (fun r => r.1 ++ r.2.1))).asString,
       results.any (fun r => r.2.2.1), false)
  else
    let r := validateOutputAddressSub bl al
    (r.1.asString, r.2.1, r.2.2)

/-! Config validation (spec sections 4.2 and 8).  Modelled from the spec:
restream.validateConfig is not under src/; the structural rules are spec
section 3 (non-empty id, non-empty input and output lists, every io id and
address non-empty, io ids unique within their list) and the behaviour is
pinned down by TestAddInvalidProcess and TestConfigValidation.  No format
allowlist and no data root are configured in those tests, so the regex and
output path checks are vacuous here. -/

/-- Whether two entries of an io list share an id. -/
def hasDupIds : List ConfigIO → Bool
  | [] => false
  | io :: rest => rest.any (fun x => x.id == io.id) || hasDupIds rest

/-- Structural validity of one io list: non-empty, every entry with a
non-empty id and address, and no duplicate ids. -/
def validIOList (l : List ConfigIO) : Bool :=
  !l.isEmpty &&
    l.all (fun io => !(io.id == "") && !(io.address == "")) &&
    !hasDupIds l

/-- Structural validity of a config. -/
def configValid (cfg : AppConfig) : Bool :=
  !(cfg.id == "") && validIOList cfg.input && validIOList cfg.output

/-- Validation step of the registry: an invalid config is rejected. -/
def validateConfig (cfg : AppConfig) : Except String Unit :=
  if configValid cfg then .ok () else .error "invalid config"

/-! Tasks and the registry state (spec sections 3 and 4.1).  Modelled from
the spec: the restream struct and its task map are not under src/. -/

/-- One managed task: the resolved config, the requested order and the
playout port per playout-enabled input (port zero when no port range is
configured). -/
structure ProcTask where
  id : String
  config : AppConfig
  order : ProcOrder
  playout : List (String × Nat)
deriving DecidableEq, Repr, Inhabited

/-- An inclusive port range for playout (spec section 4.6). -/
structure PortRange where
  lo : Nat
  hi : Nat
deriving DecidableEq, Repr, Inhabited

/-- The registry state: the ordered task list, the configured port range
and the ports in use, the detected worker binary version and the registered
template table. -/
structure RegState where
  tasks : List ProcTask
  portRange : Option PortRange
  usedPorts : List Nat
  ffmpegVersion : String
  replace : List TemplateEntry

/-- A fresh registry with the given port range, no tasks and the version of
the test helper worker binary. -/
def mkRegState (pr : Option PortRange) (tbl : List TemplateEntry) : RegState :=
  { tasks := [], portRange := pr, usedPorts := [], ffmpegVersion := "4.0.2",
    replace := tbl }

/-- Lookup of a task by process id. -/
def getTask (st : RegState) (id : String) : Option ProcTask :=
  st.tasks.find? (fun t => t.id == id)

/-- Whether an Except carries a success. -/
def exOk {α : Type} : Except String α → Bool
  | .ok _ => true
  | .error _ => false

/-- The success payload of an Except, or the default on an error. -/
def exGet {α : Type} (d : α) : Except String α → α
  | .ok a => a
  | .error _ => d

/-- Decidable equality on results, used to evaluate operation outcomes. -/
instance exceptDecEq {ε α : Type} [DecidableEq ε] [DecidableEq α] :
    DecidableEq (Except ε α)
  | .ok a, .ok b =>
    if h : a = b then .isTrue (by rw [h])
    else .isFalse (fun hh => h (Except.ok.inj hh))
  | .ok _, .error _ => .isFalse (fun hh => Except.noConfusion hh)
  | .error _, .ok _ => .isFalse (fun hh => Except.noConfusion hh)
  | .error a, .error b =>
    if h : a = b then .isTrue (by rw [h])
    else .isFalse (fun hh => h (Except.error.inj hh))

/-! Reference resolution (spec section 4.4).  Modelled from the spec:
restream.resolveAddress is not under src/; the behaviour is pinned down by
TestAddressReference: an input address starting with the hash sign must
parse as hash, process id, colon, the word output, equals sign, output id;
a malformed token, a self-reference, an unknown process and an unknown
output id each reject the config, and otherwise the address is rewritten to
the referenced output's resolved address. -/

/-- Resolve one input address against the task list. -/
def resolveAddressL (tasks : List ProcTask) (selfId : String) :
    List Char → Except String (List Char)
  | '#' :: rest =>
    (match splitAtFirst ':' rest with
     | none => .error "invalid address reference"
     | some pr =>
       match splitAtFirst '=' pr.2 with
       | none => .error "invalid address reference"
       | some kv =>
         if kv.1 ≠ "output".toList then .error "invalid address reference"
         else if pr.1.isEmpty || kv.2.isEmpty then .error "invalid address reference"
         else if pr.1.asString == selfId then .error "self reference not allowed"
         else
           match tasks.find? (fun t => t.id == pr.1.asString) with
           | none => .error "unknown referenced process"
           | some t =>
             match t.config.output.find? (fun o => o.id == kv.2.asString) with
             | none => .error "unknown referenced output"
             | some o => .ok o.address.toList)
  | l => .ok l

/-- Whether the task list has a task with the given process id whose config
exposes an output with the given output id; this is the reference target
check of the reference resolver. -/
def refTargetExists (tasks : List ProcTask) (pid oid : String) : Bool :=
  match tasks.find? (fun t => t.id == pid) with
  | none => false
  | some t => (t.config.output.find? (fun o => o.id == oid)).isSome

/-- Resolve one input address, on strings. -/
def resolveAddress (tasks : List ProcTask) (selfId : String) (address : String) :
    Except String String :=
  (resolveAddressL tasks selfId address.toList).map List.asString

/-- Resolve the addresses of every input of a config. -/
def resolveInputs (tasks : List ProcTask) (selfId : String) :
    List ConfigIO → Except String (List ConfigIO)
  | [] => .ok []
  | io :: rest =>
    match resolveAddress tasks selfId io.address with
    | .error e => .error e
    | .ok a =>
      match resolveInputs tasks selfId rest with
      | .error e => .error e
      | .ok rs => .ok ({ io with address := a } :: rs)

/-! Playout ports (spec sections 4.6 and 4.9).  Modelled from the spec: the
port allocator and the playout wiring of createTask are not under src/; the
behaviour is pinned down by TestPlayoutNoRange and TestPlayoutRange. -/

/-- Lease the lowest free port of the configured range; without a range no
port is leased. -/
def leasePort (st : RegState) : Option Nat × RegState :=
  match st.portRange with
  | none => (none, st)
  | some pr =>
    match ((List.range (pr.hi + 1 - pr.lo)).map (fun i => pr.lo + i)).find?
        (fun p => !st.usedPorts.contains p) with
    | none => (none, st)
    | some p => (some p, { st with usedPorts := p :: st.usedPorts })

/-- Lease one playout port per input whose address begins with the playout
tag; an input records port zero when no port could be leased. -/
def leasePorts (st : RegState) : List ConfigIO → List (String × Nat) × RegState
  | [] => ([], st)
  | io :: rest =>
    if "playout:".toList.isPrefixOf io.address.toList then
      match leasePort st with
      | (some p, st') =>
        let r := leasePorts st' rest
        ((io.id, p) :: r.1, r.2)
      | (none, st') =>
        let r := leasePorts st' rest
        ((io.id, 0) :: r.1, r.2)
    else leasePorts st rest

/-! Registry operations (spec section 4.1).  Modelled from the spec: the
restream methods AddProcess, UpdateProcess, StartProcess, StopProcess,
GetProcess, GetProcessIDs and GetPlayout are not under src/; the behaviour
is pinned down by the tests of src/restream/restream_test.go. -/

/-- Build a task from a config: validate, resolve templates, default the
ffversion constraint from the worker binary version, resolve address
references and lease the playout ports.  The task is materialised with
order stop. -/
def createTask (st : RegState) (cfg : AppConfig) :
    Except String (ProcTask × RegState) :=
  match validateConfig cfg with
  | .error e => .error e
  | .ok _ =>
    let rcfg := resolvePlaceholders st.replace cfg
    let rcfg := { rcfg with
      ffversion := if rcfg.ffversion == "" then "^" ++ st.ffmpegVersion
                   else rcfg.ffversion }
    match resolveInputs st.tasks rcfg.id rcfg.input with
    | .error e => .error e
    | .ok inputs =>
      let rcfg := { rcfg with input := inputs }
      let pp := leasePorts st rcfg.input
      .ok ({ id := rcfg.id, config := rcfg, order := ProcOrder.stop,
             playout := pp.1 }, pp.2)

/-- Set the order of the task with the given id. -/
def setOrder (st : RegState) (id : String) (o : ProcOrder) : RegState :=
  { st with
    tasks := st.tasks.map (fun t => if t.id == id then { t with order := o } else t) }

/-- Set the order of a registered process; unknown ids are rejected,
repeated requests for the same order succeed. -/
def orderProcess (o : ProcOrder) (st : RegState) (id : String) :
    Except String RegState :=
  match getTask st id with
  | none => .error "unknown process"
  | some _ => .ok (setOrder st id o)

/-- StartProcess: request order start. -/
def startProcess : RegState → String → Except String RegState :=
  orderProcess ProcOrder.start

/-- StopProcess: request order stop. -/
def stopProcess : RegState → String → Except String RegState :=
  orderProcess ProcOrder.stop

/-- Iterate an order request k times, propagating the first error. -/
def orderIter (o : ProcOrder) : Nat → RegState → String → Except String RegState
  | 0, st, _ => .ok st
  | n + 1, st, id =>
    match orderProcess o st id with
    | .error e => .error e
    | .ok st' => orderIter o n st' id

/-- AddProcess: build the task, reject a duplicate id, register the task in
order stop and start it when autostart is set. -/
def addProcess (st : RegState) (cfg : AppConfig) : Except String RegState :=
  match createTask st cfg with
  | .error e => .error e
  | .ok p =>
    if (getTask p.2 cfg.id).isSome then .error "process already exists"
    else
      let st2 := { p.2 with tasks := p.2.tasks ++ [p.1] }
      if cfg.autostart then startProcess st2 cfg.id else .ok st2

/-- UpdateProcess: build the replacement task, require the old id to be
registered, reject a new id that is already taken by another task, then
atomically replace the old task; the new task starts when the old one was
ordered to start or the new config sets autostart. -/
def updateProcess (st : RegState) (id : String) (cfg : AppConfig) :
    Except String RegState :=
  match createTask st cfg with
  | .error e => .error e
  | .ok p =>
    match getTask p.2 id with
    | none => .error "unknown process"
    | some old =>
      if cfg.id != id && (getTask p.2 cfg.id).isSome then
        .error "process already exists"
      else
        let st2 := { p.2 with
          tasks := p.2.tasks.filter (fun x => x.id != id) ++ [p.1] }
        if old.order == ProcOrder.start || cfg.autostart then
          startProcess st2 p.1.id
        else .ok st2

/-- GetProcess: the resolved config of a registered process. -/
def getProcess (st : RegState) (id : String) : Except String AppConfig :=
  match getTask st id with
  | none => .error "unknown process"
  | some t => .ok t.config

/-- The order of a registered process as reported by GetProcessState. -/
def orderOf (st : RegState) (id : String) : Option ProcOrder :=
  (getTask st id).map (fun t => t.order)

/-- Whether a glob selects a value: the empty glob selects everything. -/
def matchOrEmpty (pat s : String) : Bool :=
  pat == "" || globMatch pat s

/-- GetProcessIDs: the ids of the tasks whose id and reference match the
respective globs. -/
def getProcessIDs (st : RegState) (idpat refpat : String) : List String :=
  (st.tasks.filter (fun t =>
      matchOrEmpty idpat t.id && matchOrEmpty refpat t.config.reference)).map
    (fun t => t.id)

/-- GetPlayout: the loopback playout address of an input (spec section
4.9); unknown process ids and input ids without a playout entry are
rejected, a playout input without a leased port yields the empty string. -/
def getPlayout (st : RegState) (id inputid : String) : Except String String :=
  match getTask st id with
  | none => .error "unknown process"
  | some t =>
    match t.playout.find? (fun e => e.1 == inputid) with
    | none => .error "unknown input"
    | some e =>
      .ok (if e.2 == 0 then "" else "127.0.0.1:" ++ toString e.2)

/-! Concrete fixtures, taken verbatim from src/restream/restream_test.go. -/

/-- The dummy process config of getDummyProcess. -/
def dummyProcess : AppConfig :=
  { id := "process", reference := "", ffversion := "",
    input := [{ id := "in", address := "testsrc=size=1280x720:rate=25",
                options := ["-f", "lavfi", "-re"], cleanup := [] }],
    output := [{ id := "out", address := "-",
                 options := ["-codec", "copy", "-f", "null"], cleanup := [] }],
    options := ["-loglevel", "info"],
    reconnect := true, reconnectDelay := 10, autostart := false,
    staleTimeout := 0 }

/-- The template table registered by TestReplacer. -/
def testReplacerTable : List TemplateEntry :=
  [ { name := "diskfs", fn := fun _ _ => "/mnt/diskfs", defaults := [] },
    { name := "fs:disk", fn := fun _ _ => "/mnt/diskfs", defaults := [] },
    { name := "memfs", fn := fun _ _ => "http://localhost/mnt/memfs", defaults := [] },
    { name := "fs:mem", fn := fun _ _ => "http://localhost/mnt/memfs", defaults := [] },
    { name := "rtmp", fn := fun _ _ => "rtmp://localhost/app/\x7bname\x7d?token=foobar",
      defaults := [] },
    { name := "srt", fn := fun _ sect =>
        let t := "srt://localhost:6000?mode=caller&transtype=live&latency=\x7blatency\x7d&streamid=\x7bname\x7d"
        let t := if sect == "output" then t ++ ",mode:publish" else t ++ ",mode:request"
        t ++ ",token:abcfoobar&passphrase=secret",
      defaults := [("latency", "20000")] } ]

/-- The process config submitted by TestReplacer. -/
def replacerProcess : AppConfig :=
  { id := "314159265359", reference := "refref", ffversion := "",
    input := [{
      id := "in_\x7bprocessid\x7d_\x7breference\x7d",
      address := "input:\x7binputid\x7d_process:\x7bprocessid\x7d_reference:\x7breference\x7d_diskfs:\x7bdiskfs\x7d/disk.txt_memfs:\x7bmemfs\x7d/mem.txt_fsdisk:\x7bfs:disk\x7d/fsdisk.txt_fsmem:\x7bfs:mem\x7d/fsmem.txt_rtmp:\x7brtmp,name=pmtr\x7d_srt:\x7bsrt,name=trs\x7d_rtmp:\x7brtmp,name=$inputid\x7d",
      options := [
        "-f", "lavfi", "-re",
        "input:\x7binputid\x7d",
        "process:\x7bprocessid\x7d",
        "reference:\x7breference\x7d",
        "diskfs:\x7bdiskfs\x7d/disk.txt",
        "memfs:\x7bmemfs\x7d/mem.txt",
        "fsdisk:\x7bfs:disk\x7d/fsdisk.txt",
        "fsmem:\x7bfs:mem\x7d/$inputid.txt"],
      cleanup := [] }],
    output := [{
      id := "out_\x7bprocessid\x7d_\x7breference\x7d",
      address := "output:\x7boutputid\x7d_process:\x7bprocessid\x7d_reference:\x7breference\x7d_diskfs:\x7bdiskfs\x7d/disk.txt_memfs:\x7bmemfs\x7d/mem.txt_fsdisk:\x7bfs:disk\x7d/fsdisk.txt_fsmem:\x7bfs:mem\x7d/fsmem.txt_rtmp:\x7brtmp,name=$processid\x7d_srt:\x7bsrt,name=$reference,latency=42\x7d_rtmp:\x7brtmp,name=$outputid\x7d",
      options := [
        "-codec", "copy", "-f", "null",
        "output:\x7boutputid\x7d",
        "process:\x7bprocessid\x7d",
        "reference:\x7breference\x7d",
        "diskfs:\x7bdiskfs\x7d/disk.txt",
        "memfs:\x7bmemfs\x7d/mem.txt",
        "fsdisk:\x7bfs:disk\x7d/fsdisk.txt",
        "fsmem:\x7bfs:mem\x7d/$outputid.txt"],
      cleanup := [{
        pattern := "pattern_\x7boutputid\x7d_\x7bprocessid\x7d_\x7breference\x7d_\x7brtmp,name=$outputid\x7d",
        maxFiles := 0, maxFileAge := 0, purgeOnDelete := false }] }],
    options := [
      "-loglevel", "info",
      "\x7bdiskfs\x7d/foobar_on_disk.txt",
      "\x7bmemfs\x7d/foobar_in_mem.txt",
      "\x7bfs:disk\x7d/foobar_on_disk_aswell.txt",
      "\x7bfs:mem\x7d/foobar_in_mem_aswell.txt"],
    reconnect := true, reconnectDelay := 10, autostart := false,
    staleTimeout := 0 }

/-- The resolved config TestReplacer expects to find stored in the task. -/
def replacerExpected : AppConfig :=
  { id := "314159265359", reference := "refref", ffversion := "^4.0.2",
    input := [{
      id := "in_314159265359_refref",
      address := "input:in_314159265359_refref_process:314159265359_reference:refref_diskfs:/mnt/diskfs/disk.txt_memfs:http://localhost/mnt/memfs/mem.txt_fsdisk:/mnt/diskfs/fsdisk.txt_fsmem:http://localhost/mnt/memfs/fsmem.txt_rtmp:rtmp://localhost/app/pmtr?token=foobar_srt:srt://localhost:6000?mode=caller&transtype=live&latency=20000&streamid=trs,mode:request,token:abcfoobar&passphrase=secret_rtmp:rtmp://localhost/app/in_314159265359_refref?token=foobar",
      options := [
        "-f", "lavfi", "-re",
        "input:in_314159265359_refref",
        "process:314159265359",
        "reference:refref",
        "diskfs:/mnt/diskfs/disk.txt",
        "memfs:http://localhost/mnt/memfs/mem.txt",
        "fsdisk:/mnt/diskfs/fsdisk.txt",
        "fsmem:http://localhost/mnt/memfs/$inputid.txt"],
      cleanup := [] }],
    output := [{
      id := "out_314159265359_refref",
      address := "output:out_314159265359_refref_process:314159265359_reference:refref_diskfs:/mnt/diskfs/disk.txt_memfs:http://localhost/mnt/memfs/mem.txt_fsdisk:/mnt/diskfs/fsdisk.txt_fsmem:http://localhost/mnt/memfs/fsmem.txt_rtmp:rtmp://localhost/app/314159265359?token=foobar_srt:srt://localhost:6000?mode=caller&transtype=live&latency=42&streamid=refref,mode:publish,token:abcfoobar&passphrase=secret_rtmp:rtmp://localhost/app/out_314159265359_refref?token=foobar",
      options := [
        "-codec", "copy", "-f", "null",
        "output:out_314159265359_refref",
        "process:314159265359",
        "reference:refref",
        "diskfs:/mnt/diskfs/disk.txt",
        "memfs:http://localhost/mnt/memfs/mem.txt",
        "fsdisk:/mnt/diskfs/fsdisk.txt",
        "fsmem:http://localhost/mnt/memfs/$outputid.txt"],
      cleanup := [{
        pattern := "pattern_out_314159265359_refref_314159265359_refref_\x7brtmp,name=$outputid\x7d",
        maxFiles := 0, maxFileAge := 0, purgeOnDelete := false }] }],
    options := [
      "-loglevel", "info",
      "/mnt/diskfs/foobar_on_disk.txt",
      "\x7bmemfs\x7d/foobar_in_mem.txt",
      "/mnt/diskfs/foobar_on_disk_aswell.txt",
      "http://localhost/mnt/memfs/foobar_in_mem_aswell.txt"],
    reconnect := true, reconnectDelay := 10, autostart := false,
    staleTimeout := 0 }

/-- The playout variant of the dummy process used by TestPlayoutNoRange and
TestPlayoutRange: the input address carries the playout tag. -/
def playoutProcess : AppConfig :=
  { dummyProcess with
    input := [{ id := "in", address := "playout:testsrc=size=1280x720:rate=25",
                options := ["-f", "lavfi", "-re"], cleanup := [] }] }

/-- The registry of TestGetProcess: four dummy processes whose reference
equals their id. -/
def globState : RegState :=
  exGet (mkRegState none [])
    (match addProcess (mkRegState none []) { dummyProcess with id := "foo_aaa_1", reference := "foo_aaa_1" } with
     | .error e => .error e
     | .ok s1 =>
       match addProcess s1 { dummyProcess with id := "bar_bbb_2", reference := "bar_bbb_2" } with
       | .error e => .error e
       | .ok s2 =>
         match addProcess s2 { dummyProcess with id := "foo_ccc_3", reference := "foo_ccc_3" } with
         | .error e => .error e
         | .ok s3 =>
           addProcess s3 { dummyProcess with id := "bar_ddd_4", reference := "bar_ddd_4" })

/-- A registry holding the dummy process, as set up by TestAddressReference
and TestStartProcess. -/
def refState : RegState :=
  exGet (mkRegState none []) (addProcess (mkRegState none []) dummyProcess)

/-- The config TestAddressReference adds as process2, parameterised by its
input address. -/
def refProcess2 (a : String) : AppConfig :=
  { dummyProcess with
    id := "process2"
    input := [{ id := "in", address := a, options := [], cleanup := [] }] }

/-- A registry holding process1 and process2, as set up by
TestUpdateProcess. -/
def upState : RegState :=
  exGet (mkRegState none [])
    (match addProcess (mkRegState none []) { dummyProcess with id := "process1" } with
     | .error e => .error e
     | .ok s1 => addProcess s1 { dummyProcess with id := "process2" })

/-- A literal one-task registry whose task has a portless playout input,
used as a concrete instance. -/
def sampleState : RegState :=
  { tasks := [{ id := "process", config := dummyProcess, order := ProcOrder.stop,
                playout := [("in", 0)] }],
    portRange := none, usedPorts := [], ffmpegVersion := "4.0.2", replace := [] }

/-! Helper lemmas. -/

theorem strToList_append (a b : String) : (a ++ b).toList = a.toList ++ b.toList := by
  cases a
  cases b
  rfl

theorem asString_toList (s : String) : s.toList.asString = s := rfl

theorem strToList_eq_nil {s : String} : s.toList = [] ↔ s = "" := by
  cases s with
  | mk d =>
    constructor
    · intro h
      simp only [String.toList] at h
      rw [show ("" : String) = String.mk [] from rfl, h]
    · intro h
      rw [h]
      rfl

theorem strToList_inj {s t : String} (h : s.toList = t.toList) : s = t := by
  cases s
  cases t
  simp only [String.toList] at h
  rw [h]

theorem exGet_ok_irrel {α : Type} {e : Except String α} (d d' : α)
    (h : exOk e = true) : exGet d e = exGet d' e := by
  cases e with
  | ok a => rfl
  | error x => simp [exOk] at h

theorem splitAtFirst_append {sep : Char} :
    ∀ {l : List Char}, l.contains sep = false → ∀ (r : List Char),
      splitAtFirst sep (l ++ sep :: r) = some (l, r) := by
  intro l
  induction l with
  | nil =>
    intro _ r
    simp [splitAtFirst]
  | cons c cs ih =>
    intro h r
    simp only [List.contains_cons, Bool.or_eq_false_iff, beq_eq_false_iff_ne] at h
    simp only [List.cons_append, splitAtFirst, if_neg (Ne.symm h.1), List.append_eq,
      ih h.2 r]
    rfl

theorem scanPH_no_brace (tbl : List TemplateEntry) (cfg : AppConfig) (sect pat value : String)
    (vars : List (String × String)) :
    ∀ (n : Nat) {s : List Char}, s.contains '\x7b' = false →
      scanPH tbl cfg sect pat value vars n s = s := by
  intro n
  induction n with
  | zero =>
    intro s _
    rfl
  | succ n ih =>
    intro s h
    cases s with
    | nil => rfl
    | cons c rest =>
      simp only [List.contains_cons, Bool.or_eq_false_iff, beq_eq_false_iff_ne] at h
      simp only [scanPH, if_neg (Ne.symm h.1), ih h.2]

theorem replacePH_no_brace (tbl : List TemplateEntry) (cfg : AppConfig)
    (sect pat value : String) (vars : List (String × String)) {s : String}
    (h : s.toList.contains '\x7b' = false) :
    replacePH tbl cfg sect pat value vars s = s := by
  unfold replacePH
  rw [scanPH_no_brace tbl cfg sect pat value vars _ h, asString_toList]

theorem resolvePlaceholders_id (tbl : List TemplateEntry) (cfg : AppConfig) :
    (resolvePlaceholders tbl cfg).id = cfg.id := rfl

theorem leasePort_tasks (st : RegState) : (leasePort st).2.tasks = st.tasks := by
  unfold leasePort
  split
  · rfl
  · split
    · rfl
    · rfl

theorem leasePorts_tasks (inputs : List ConfigIO) :
    ∀ (st : RegState), (leasePorts st inputs).2.tasks = st.tasks := by
  induction inputs with
  | nil =>
    intro st
    rfl
  | cons io rest ih =>
    intro st
    unfold leasePorts
    by_cases hp : "playout:".toList.isPrefixOf io.address.toList
    · rw [if_pos hp]
      have hl := leasePort_tasks st
      rcases hlp : leasePort st with ⟨o, st'⟩
      rw [hlp] at hl
      cases o with
      | none => simpa [ih st'] using hl
      | some p => simpa [ih st'] using hl
    · rw [if_neg hp]
      exact ih st

theorem getTask_congr {st st' : RegState} (h : st.tasks = st'.tasks) (id : String) :
    getTask st id = getTask st' id := by
  unfold getTask
  rw [h]

theorem createTask_props {st : RegState} {cfg : AppConfig} {p : ProcTask × RegState}
    (h : createTask st cfg = .ok p) :
    p.2.tasks = st.tasks ∧ p.1.id = cfg.id ∧ p.1.order = ProcOrder.stop := by
  unfold createTask at h
  split at h
  · exact Except.noConfusion h
  · dsimp only at h
    split at h
    · exact Except.noConfusion h
    · obtain rfl := Except.ok.inj h
      exact ⟨leasePorts_tasks _ st, rfl, rfl⟩

theorem getTask_setOrder (st : RegState) (i j : String) (o : ProcOrder) :
    getTask (setOrder st i o) j =
      (getTask st j).map (fun t => if t.id == i then { t with order := o } else t) := by
  unfold getTask setOrder
  rw [List.find?_map]
  have hp : ((fun t => t.id == j) ∘
        fun t : ProcTask => if (t.id == i) = true then { t with order := o } else t)
      = (fun t : ProcTask => t.id == j) := by
    funext t
    by_cases h : t.id == i <;> simp [h, Function.comp]
  rw [hp]

theorem find?_id_append {l : List ProcTask} {t : ProcTask} {i : String}
    (hl : l.find? (fun x => x.id == i) = none) (ht : t.id = i) :
    (l ++ [t]).find? (fun x => x.id == i) = some t := by
  simp [List.find?_append, hl, ht]

theorem find?_id_filter_ne (l : List ProcTask) (j : String) :
    (l.filter (fun x => x.id != j)).find? (fun x => x.id == j) = none := by
  rw [List.find?_eq_none]
  intro x hx
  have hne := (List.mem_filter.mp hx).2
  simp only [bne_iff_ne, ne_eq] at hne
  simp [hne]

theorem find?_id_filter_none {l : List ProcTask} {i j : String}
    (h : l.find? (fun x => x.id == i) = none) :
    (l.filter (fun x => x.id != j)).find? (fun x => x.id == i) = none := by
  rw [List.find?_eq_none] at h ⊢
  intro x hx
  exact h x (List.mem_filter.mp hx).1

theorem addProcess_exOk_of_free {st : RegState} {cfg : AppConfig}
    (hfree : getTask st cfg.id = none) :
    exOk (addProcess st cfg) = exOk (createTask st cfg) := by
  cases hc : createTask st cfg with
  | error e =>
    simp only [addProcess, hc]
    rfl
  | ok p =>
    obtain ⟨htasks, hid, _⟩ := createTask_props hc
    have hfree2 : getTask p.2 cfg.id = none := by
      rw [getTask_congr htasks]
      exact hfree
    have hst2 : getTask { p.2 with tasks := p.2.tasks ++ [p.1] } cfg.id = some p.1 := by
      unfold getTask at hfree2 ⊢
      exact find?_id_append hfree2 hid
    simp only [addProcess, hc, hfree2, Option.isSome_none, Bool.false_eq_true, if_false]
    cases hauto : cfg.autostart with
    | false => rfl
    | true => simp [startProcess, orderProcess, hst2, exOk]

theorem addProcess_ok_orderOf {st : RegState} {cfg : AppConfig} {st' : RegState}
    (h : addProcess st cfg = .ok st') :
    orderOf st' cfg.id = some (if cfg.autostart then ProcOrder.start else ProcOrder.stop) := by
  unfold addProcess at h
  split at h
  · exact Except.noConfusion h
  case h_2 p hc =>
    obtain ⟨htasks, hid, hord⟩ := createTask_props hc
    split at h
    · exact Except.noConfusion h
    case isFalse hns =>
      have hfree2 : getTask p.2 cfg.id = none := by
        cases hgt : getTask p.2 cfg.id with
        | none => rfl
        | some t =>
          rw [hgt] at hns
          simp at hns
      have hst2 : getTask { p.2 with tasks := p.2.tasks ++ [p.1] } cfg.id = some p.1 := by
        unfold getTask at hfree2 ⊢
        exact find?_id_append hfree2 hid
      cases hauto : cfg.autostart with
      | false =>
        rw [hauto] at h
        simp only [if_false] at h ⊢
        obtain rfl := Except.ok.inj h
        unfold orderOf
        rw [hst2]
        simp [hord]
      | true =>
        rw [hauto] at h
        simp only [if_true] at h ⊢
        unfold startProcess orderProcess at h
        rw [hst2] at h
        obtain rfl := Except.ok.inj h
        unfold orderOf
        rw [getTask_setOrder, hst2]
        simp [hid]

theorem createTask_single_exOk (st : RegState) (cfg : AppConfig) (io : ConfigIO)
    (hin : cfg.input = [io]) (hbf : io.address.toList.contains '\x7b' = false)
    (hval : configValid cfg = true) :
    exOk (createTask st cfg) = exOk (resolveAddressL st.tasks cfg.id io.address.toList) := by
  unfold createTask validateConfig
  rw [hval]
  simp only [if_true]
  unfold resolvePlaceholders
  rw [hin]
  simp only [List.map_cons, List.map_nil]
  simp only [replacePH_no_brace _ _ _ _ _ _ hbf]
  unfold resolveInputs resolveAddress
  cases hr : resolveAddressL st.tasks cfg.id io.address.toList with
  | error e => simp [hr, exOk, Except.map, resolveInputs]
  | ok a => simp [hr, exOk, Except.map, resolveInputs]

theorem resolveAddressL_token (tasks : List ProcTask) (selfId X Y : String)
    (hX : X.toList.contains ':' = false) (hXne : X ≠ "") (hYne : Y ≠ "") :
    exOk (resolveAddressL tasks selfId (("#" ++ X ++ ":output=" ++ Y).toList)) = true ↔
      (X ≠ selfId ∧ refTargetExists tasks X Y = true) := by
  have h1 : ("#" ++ X ++ ":output=" ++ Y).toList
      = '#' :: (X.toList ++ ':' :: ("output".toList ++ '=' :: Y.toList)) := by
    simp only [strToList_append, List.append_assoc]
    rfl
  have hxe : X.toList.isEmpty = false := by
    cases hxl : X.toList with
    | nil => exact absurd (strToList_eq_nil.mp hxl) hXne
    | cons c cs => rfl
  have hye : Y.toList.isEmpty = false := by
    cases hyl : Y.toList with
    | nil => exact absurd (strToList_eq_nil.mp hyl) hYne
    | cons c cs => rfl
  rw [h1]
  simp only [resolveAddressL]
  rw [splitAtFirst_append hX]
  simp only []
  rw [splitAtFirst_append (by decide : ("output".toList).contains '=' = false)]
  simp only [ne_eq, not_true_eq_false, if_neg, hxe, hye, Bool.or_self, if_false,
    asString_toList]
  by_cases hself : X = selfId
  · simp [hself, exOk]
  · have hb : (X == selfId) = false := by simp [hself]
    simp only [hb, Bool.false_eq_true, if_false, refTargetExists]
    cases hf : tasks.find? (fun t => t.id == X) with
    | none => simp [hf, exOk, hself]
    | some t =>
      simp only [hf]
      cases ho : t.config.output.find? (fun o => o.id == Y) with
      | none => simp [ho, exOk, hself]
      | some o => simp [ho, exOk, hself]

theorem resolveAddressL_badkey (tasks : List ProcTask) (selfId pid key oid : String)
    (hp : pid.toList.contains ':' = false)
    (hke : key.toList.contains '=' = false)
    (hkey : key ≠ "output") :
    exOk (resolveAddressL tasks selfId
      (("#" ++ pid ++ ":" ++ key ++ "=" ++ oid).toList)) = false := by
  have h1 : ("#" ++ pid ++ ":" ++ key ++ "=" ++ oid).toList
      = '#' :: (pid.toList ++ ':' :: (key.toList ++ '=' :: oid.toList)) := by
    simp only [strToList_append, List.append_assoc]
    rfl
  have hk2 : key.toList ≠ "output".toList := fun hh => hkey (strToList_inj hh)
  rw [h1]
  simp only [resolveAddressL]
  rw [splitAtFirst_append hp]
  simp only []
  rw [splitAtFirst_append hke]
  simp only []
  rw [if_pos hk2]
  rfl

theorem orderIter_ok (o : ProcOrder) (id : String) :
    ∀ (k : Nat) (st : RegState), (getTask st id).isSome = true →
      exOk (orderIter o (k + 1) st id) = true ∧
      orderOf (exGet st (orderIter o (k + 1) st id)) id = some o := by
  have step : ∀ (st : RegState) (t : ProcTask), getTask st id = some t →
      orderProcess o st id = .ok (setOrder st id o) ∧
      getTask (setOrder st id o) id = some { t with order := o } := by
    intro st t ht
    have ht' : st.tasks.find? (fun x => x.id == id) = some t := ht
    have hbeq : (t.id == id) = true := by
      have hb := List.find?_some ht'
      simpa using hb
    constructor
    · unfold orderProcess
      rw [ht]
    · rw [getTask_setOrder, ht]
      have heq : t.id = id := by simpa using hbeq
      simp [heq]
  intro k
  induction k with
  | zero =>
    intro st h
    obtain ⟨t, ht⟩ := Option.isSome_iff_exists.mp h
    obtain ⟨hstep, hto⟩ := step st t ht
    refine ⟨?_, ?_⟩
    · simp [orderIter, hstep, exOk]
    · simp [orderIter, hstep, exGet, orderOf, hto]
  | succ n ih =>
    intro st h
    obtain ⟨t, ht⟩ := Option.isSome_iff_exists.mp h
    obtain ⟨hstep, hto⟩ := step st t ht
    have h2 : (getTask (setOrder st id o) id).isSome = true := by
      rw [hto]
      rfl
    have hrec := ih (setOrder st id o) h2
    have hunf : orderIter o (n + 1 + 1) st id = orderIter o (n + 1) (setOrder st id o) id := by
      conv_lhs => rw [orderIter]
      rw [hstep]
    refine ⟨?_, ?_⟩
    · rw [hunf]
      exact hrec.1
    · rw [hunf, exGet_ok_irrel st (setOrder st id o) hrec.1]
      exact hrec.2

theorem hasDupIds_eq_false_iff (l : List ConfigIO) :
    hasDupIds l = false ↔ (l.map ConfigIO.id).Nodup := by
  induction l with
  | nil => exact ⟨fun _ => List.nodup_nil, fun _ => rfl⟩
  | cons io rest ih =>
    simp only [hasDupIds, Bool.or_eq_false_iff, List.map_cons, List.nodup_cons, ih,
      List.mem_map]
    constructor
    · rintro ⟨h1, h2⟩
      refine ⟨?_, h2⟩
      rintro ⟨x, hx, hxid⟩
      have hall := List.any_eq_false.mp h1 x hx
      rw [hxid] at hall
      simp at hall
    · rintro ⟨h1, h2⟩
      refine ⟨?_, h2⟩
      rw [List.any_eq_false]
      intro x hx hxid
      exact h1 ⟨x, hx, by simpa using hxid⟩

/-! The claims. -/

set_option maxRecDepth 100000 in
/-- Claim C1, counterexample: the claim states that the second, dollar-sign
pass applies uniformly to every entry of options.  On the TestReplacer
config the resolved input options still contain the literal dollar-inputid
token in their last entry, although the input id it would expand to is
in_314159265359_refref; so the dollar expansion this claim asserts did not
happen there, and the entry differs from its dollar-expanded form. -/
theorem c1_dollar_not_uniform :
    ((resolvePlaceholders testReplacerTable replacerProcess).input.headD default).id
      = "in_314159265359_refref" ∧
    ((resolvePlaceholders testReplacerTable replacerProcess).input.headD
        default).options.getD 9 ""
      = "fsmem:http://localhost/mnt/memfs/$inputid.txt" ∧
    expandVars [("inputid", "in_314159265359_refref")]
        "fsmem:http://localhost/mnt/memfs/$inputid.txt".toList
      = "fsmem:http://localhost/mnt/memfs/in_314159265359_refref.txt".toList ∧
    ("fsmem:http://localhost/mnt/memfs/$inputid.txt" : String)
      ≠ "fsmem:http://localhost/mnt/memfs/in_314159265359_refref.txt" := by
  decide

set_option maxRecDepth 100000 in
/-- Claim C1, amended: after the single pass of brace-placeholder
substitution, dollar variables (processid, reference, inputid, outputid)
are expanded only inside the argument values of brace placeholders; dollar
tokens in plain text of options and cleanup patterns stay literal, and no
further recursive expansion happens.  Concretely, AddProcess on the
TestReplacer config stores exactly the resolved config the test expects,
including the literal dollar tokens it preserves. -/
theorem c1_two_pass_resolution :
    (addProcess (mkRegState none testReplacerTable) replacerProcess).map
        (fun st => (getTask st "314159265359").map ProcTask.config)
      = .ok (some replacerExpected) := by
  decide

set_option maxRecDepth 100000 in
/-- Claim C2: validateOutputAddress canonicalises and polices every path of
the spec's table exactly as listed (third component true means rejected). -/
theorem c2_output_address_canonicalisation :
    validateOutputAddress "/dev/null" "/core/data" = ("file:/dev/null", false, false) ∧
    validateOutputAddress "/dev/../etc/passwd" "/core/data" = ("/etc/passwd", false, true) ∧
    validateOutputAddress "/core/data/../../etc/passwd" "/core/data"
      = ("/etc/passwd", false, true) ∧
    validateOutputAddress "/core/data/./etc/passwd" "/core/data"
      = ("file:/core/data/etc/passwd", true, false) ∧
    validateOutputAddress "-" "/core/data" = ("pipe:", false, false) ∧
    validateOutputAddress "/core/data/foobar|http://example.com" "/core/data"
      = ("file:/core/data/foobar|http://example.com", true, false) ∧
    validateOutputAddress "[f=null]-|[f=null]-" "/core/data"
      = ("[f=null]pipe:|[f=null]pipe:", false, false) := by
  decide

/-- Claim C3: for a config whose single input address is the reference
token hash-X-colon-output-equals-Y, AddProcess succeeds exactly when X is
not the config's own id and a registered task X exposes an output Y; in
every other case (unknown process, unknown output, self-reference) it
errors. -/
theorem c3_reference_integrity (st : RegState) (cfg : AppConfig) (io : ConfigIO)
    (X Y : String)
    (hin : cfg.input = [io])
    (haddr : io.address = "#" ++ X ++ ":output=" ++ Y)
    (hX : X.toList.contains ':' = false) (hXne : X ≠ "") (hYne : Y ≠ "")
    (hbf : io.address.toList.contains '\x7b' = false)
    (hval : configValid cfg = true)
    (hfree : getTask st cfg.id = none) :
    exOk (addProcess st cfg) = true ↔
      (X ≠ cfg.id ∧ refTargetExists st.tasks X Y = true) := by
  rw [addProcess_exOk_of_free hfree, createTask_single_exOk st cfg io hin hbf hval,
    haddr]
  exact resolveAddressL_token st.tasks cfg.id X Y hX hXne hYne

/-- Witness for C3 on the TestAddressReference instances: the valid
reference is accepted and the unknown-output reference is rejected. -/
theorem c3_reference_integrity_witness :
    exOk (addProcess refState (refProcess2 "#process:output=out")) = true ∧
    exOk (addProcess refState (refProcess2 "#process:output=foobar")) = false := by
  constructor
  · exact (c3_reference_integrity refState (refProcess2 "#process:output=out")
      { id := "in", address := "#process:output=out", options := [], cleanup := [] }
      "process" "out" (by decide) (by decide) (by decide) (by decide) (by decide)
      (by decide) (by decide) (by decide)).mpr (by decide)
  · have h := c3_reference_integrity refState (refProcess2 "#process:output=foobar")
      { id := "in", address := "#process:output=foobar", options := [], cleanup := [] }
      "process" "foobar" (by decide) (by decide) (by decide) (by decide) (by decide)
      (by decide) (by decide) (by decide)
    refine Bool.eq_false_iff.mpr (fun hh => ?_)
    exact absurd (h.mp hh).2 (by decide)

/-- Claim C4: with a task registered under the old id and a buildable new
config whose id differs from the old id, UpdateProcess fails when the new
id is already taken; otherwise it succeeds, after which GetProcess on the
old id errors and GetProcess on the new id succeeds. -/
theorem c4_update_semantics (st : RegState) (idA : String) (cfg : AppConfig)
    (hA : (getTask st idA).isSome = true)
    (hct : exOk (createTask st cfg) = true)
    (hne : cfg.id ≠ idA) :
    ((getTask st cfg.id).isSome = true → exOk (updateProcess st idA cfg) = false) ∧
    ((getTask st cfg.id).isSome = false →
      exOk (updateProcess st idA cfg) = true ∧
      exOk (getProcess (exGet st (updateProcess st idA cfg)) idA) = false ∧
      exOk (getProcess (exGet st (updateProcess st idA cfg)) cfg.id) = true) := by
  cases hc : createTask st cfg with
  | error e =>
    rw [hc] at hct
    exact absurd hct (by simp [exOk])
  | ok p =>
    obtain ⟨htasks, hid, hord⟩ := createTask_props hc
    obtain ⟨tA, htA⟩ := Option.isSome_iff_exists.mp hA
    have htA2 : getTask p.2 idA = some tA := by
      rw [getTask_congr htasks]
      exact htA
    have hbne : (cfg.id != idA) = true := by simpa [bne_iff_ne] using hne
    constructor
    · intro hsome
      have hsome2 : (getTask p.2 cfg.id).isSome = true := by
        rw [getTask_congr htasks]
        exact hsome
      simp [updateProcess, hc, htA2, hbne, hsome2, exOk]
    · intro hnone
      have hfree : getTask st cfg.id = none := by
        cases hgt : getTask st cfg.id with
        | none => rfl
        | some u =>
          rw [hgt] at hnone
          simp at hnone
      have hnone2 : (getTask p.2 cfg.id).isSome = false := by
        rw [getTask_congr htasks, hfree]
        rfl
      have hfindA : ((p.2.tasks.filter (fun x => x.id != idA)) ++ [p.1]).find?
          (fun x => x.id == idA) = none := by
        rw [List.find?_append, find?_id_filter_ne]
        simp [hid, hne]
      have hfindB : ((p.2.tasks.filter (fun x => x.id != idA)) ++ [p.1]).find?
          (fun x => x.id == cfg.id) = some p.1 := by
        apply find?_id_append _ hid
        apply find?_id_filter_none
        rw [htasks]
        exact hfree
      simp only [updateProcess, hc, htA2, hnone2, Bool.and_false, Bool.false_eq_true,
        if_false]
      have hgA : getTask { p.2 with
          tasks := p.2.tasks.filter (fun x => x.id != idA) ++ [p.1] } idA = none :=
        hfindA
      have hgB : getTask { p.2 with
          tasks := p.2.tasks.filter (fun x => x.id != idA) ++ [p.1] } cfg.id
          = some p.1 := hfindB
      cases hcond : (tA.order == ProcOrder.start || cfg.autostart) with
      | false =>
        simp only [hcond, Bool.false_eq_true, if_false]
        refine ⟨rfl, ?_, ?_⟩
        · simp [getProcess, exGet, hgA, exOk]
        · simp [getProcess, exGet, hgB, exOk]
      | true =>
        simp only [hcond, if_true]
        have hgB' : getTask { p.2 with
            tasks := p.2.tasks.filter (fun x => x.id != idA) ++ [p.1] } p.1.id
            = some p.1 := by
          rw [hid]
          exact hgB
        have hsp : startProcess { p.2 with
            tasks := p.2.tasks.filter (fun x => x.id != idA) ++ [p.1] } p.1.id
            = .ok (setOrder { p.2 with
                tasks := p.2.tasks.filter (fun x => x.id != idA) ++ [p.1] }
                p.1.id ProcOrder.start) := by
          unfold startProcess orderProcess
          rw [hgB']
        rw [hsp]
        refine ⟨rfl, ?_, ?_⟩
        · have hsA : getTask (setOrder { p.2 with
              tasks := p.2.tasks.filter (fun x => x.id != idA) ++ [p.1] }
              p.1.id ProcOrder.start) idA = none := by
            rw [getTask_setOrder, hgA]
            rfl
          simp [getProcess, exGet, hsA, exOk]
        · have hsB : getTask (setOrder { p.2 with
              tasks := p.2.tasks.filter (fun x => x.id != idA) ++ [p.1] }
              p.1.id ProcOrder.start) cfg.id
              = some { p.1 with order := ProcOrder.start } := by
            rw [getTask_setOrder, hgB]
            simp [hid]
          simp [getProcess, exGet, hsB, exOk]

/-- Witness for C4 on the TestUpdateProcess instances: renaming process1 to
the taken id process2 fails, renaming it to process3 succeeds and moves the
task. -/
theorem c4_update_semantics_witness :
    exOk (updateProcess upState "process1" { dummyProcess with id := "process2" })
      = false ∧
    exOk (updateProcess upState "process1" { dummyProcess with id := "process3" })
      = true ∧
    exOk (getProcess (exGet upState
        (updateProcess upState "process1" { dummyProcess with id := "process3" }))
      "process1") = false ∧
    exOk (getProcess (exGet upState
        (updateProcess upState "process1" { dummyProcess with id := "process3" }))
      "process3") = true := by
  refine ⟨?_, ?_⟩
  · exact (c4_update_semantics upState "process1" { dummyProcess with id := "process2" }
      (by decide) (by decide) (by decide)).1 (by decide)
  · exact (c4_update_semantics upState "process1" { dummyProcess with id := "process3" }
      (by decide) (by decide) (by decide)).2 (by decide)

/-- Claim C5: for a registered process, k repeated StartProcess requests
all succeed and leave the order at start, and k repeated StopProcess
requests all succeed and leave the order at stop, for every k at least
one. -/
theorem c5_order_idempotence (st : RegState) (id : String) (k : Nat)
    (h : (getTask st id).isSome = true) (hk : 1 ≤ k) :
    (exOk (orderIter ProcOrder.start k st id) = true ∧
      orderOf (exGet st (orderIter ProcOrder.start k st id)) id = some ProcOrder.start) ∧
    (exOk (orderIter ProcOrder.stop k st id) = true ∧
      orderOf (exGet st (orderIter ProcOrder.stop k st id)) id = some ProcOrder.stop) := by
  obtain ⟨n, rfl⟩ : ∃ n, k = n + 1 := ⟨k - 1, by omega⟩
  exact ⟨orderIter_ok ProcOrder.start id n st h, orderIter_ok ProcOrder.stop id n st h⟩

/-- Witness for C5 at k equal to three on a registered process. -/
theorem c5_order_idempotence_witness :
    exOk (orderIter ProcOrder.start 3 sampleState "process") = true ∧
    orderOf (exGet sampleState (orderIter ProcOrder.stop 3 sampleState "process"))
      "process" = some ProcOrder.stop := by
  refine ⟨?_, ?_⟩
  · exact (c5_order_idempotence sampleState "process" 3 (by decide) (by decide)).1.1
  · exact (c5_order_idempotence sampleState "process" 3 (by decide) (by decide)).2.2

/-- Claim C6: GetPlayout errors on an unknown process id and on an input id
without a playout entry; on the playout-tagged dummy process it returns the
empty string after AddProcess without a port range, and 127.0.0.1:3000 on
the first call with the range 3000 to 3001. -/
theorem c6_playout :
    (∀ (st : RegState) (id inputid : String), getTask st id = none →
        exOk (getPlayout st id inputid) = false) ∧
    (∀ (st : RegState) (id inputid : String) (t : ProcTask), getTask st id = some t →
        t.playout.find? (fun e => e.1 == inputid) = none →
        exOk (getPlayout st id inputid) = false) ∧
    (addProcess (mkRegState none []) playoutProcess).bind
        (fun st => getPlayout st "process" "in") = .ok "" ∧
    (addProcess (mkRegState (some { lo := 3000, hi := 3001 }) []) playoutProcess).bind
        (fun st => getPlayout st "process" "in") = .ok "127.0.0.1:3000" := by
  refine ⟨?_, ?_, by decide, by decide⟩
  · intro st id inputid h
    simp [getPlayout, h, exOk]
  · intro st id inputid t ht hp
    simp [getPlayout, ht, hp, exOk]

/-- Witness for C6 on concrete unknown ids. -/
theorem c6_playout_witness :
    exOk (getPlayout sampleState "foobar" "in") = false ∧
    exOk (getPlayout sampleState "process" "foobar") = false := by
  refine ⟨?_, ?_⟩
  · exact c6_playout.1 sampleState "foobar" "in" (by decide)
  · exact c6_playout.2.1 sampleState "process" "foobar"
      { id := "process", config := dummyProcess, order := ProcOrder.stop,
        playout := [("in", 0)] } (by decide) (by decide)

/-- Claim C7: a config with an empty id, no inputs, no outputs, an io entry
with an empty id or address, or duplicate io ids fails validation, and
AddProcess rejects it on any registry without registering a task. -/
theorem c7_invalid_config (cfg : AppConfig)
    (h : cfg.id = "" ∨ cfg.input = [] ∨ cfg.output = [] ∨
         (∃ io ∈ cfg.input, io.id = "" ∨ io.address = "") ∨
         (∃ io ∈ cfg.output, io.id = "" ∨ io.address = "") ∨
         ¬ (cfg.input.map ConfigIO.id).Nodup ∨ ¬ (cfg.output.map ConfigIO.id).Nodup) :
    exOk (validateConfig cfg) = false ∧
    ∀ st : RegState, exOk (addProcess st cfg) = false := by
  have hcv : configValid cfg = false := by
    cases hcvv : configValid cfg with
    | false => rfl
    | true =>
      exfalso
      unfold configValid at hcvv
      have h1 : (!(cfg.id == "")) = true ∧ validIOList cfg.input = true ∧
          validIOList cfg.output = true := by
        simpa [Bool.and_eq_true, and_assoc] using hcvv
      have hio : ∀ l : List ConfigIO, validIOList l = true →
          l ≠ [] ∧ (∀ io ∈ l, io.id ≠ "" ∧ io.address ≠ "") ∧ (l.map ConfigIO.id).Nodup := by
        intro l hl
        unfold validIOList at hl
        have hl' : (!l.isEmpty) = true ∧
            (∀ io ∈ l, ((!(io.id == "")) && !(io.address == "")) = true) ∧
            (!hasDupIds l) = true := by
          simpa [Bool.and_eq_true, and_assoc, List.all_eq_true] using hl
        refine ⟨?_, ?_, ?_⟩
        · intro hnil
          rw [hnil] at hl'
          simp at hl'
        · intro io hiomem
          have := hl'.2.1 io hiomem
          simp only [Bool.and_eq_true, Bool.not_eq_true', beq_eq_false_iff_ne, ne_eq]
            at this
          exact this
        · exact (hasDupIds_eq_false_iff l).mp (by simpa using hl'.2.2)
      have hid : cfg.id ≠ "" := by
        have := h1.1
        simpa using this
      obtain ⟨hine, hiall, hinodup⟩ := hio cfg.input h1.2.1
      obtain ⟨hone, hoall, honodup⟩ := hio cfg.output h1.2.2
      rcases h with h | h | h | ⟨io, hiomem, hcase⟩ | ⟨io, hiomem, hcase⟩ | h | h
      · exact hid h
      · exact hine h
      · exact hone h
      · rcases hcase with hcase | hcase
        · exact (hiall io hiomem).1 hcase
        · exact (hiall io hiomem).2 hcase
      · rcases hcase with hcase | hcase
        · exact (hoall io hiomem).1 hcase
        · exact (hoall io hiomem).2 hcase
      · exact h hinodup
      · exact h honodup
  refine ⟨by simp [validateConfig, hcv, exOk], fun st => ?_⟩
  have hct : createTask st cfg = .error "invalid config" := by
    unfold createTask validateConfig
    rw [hcv]
    rfl
  simp only [addProcess, hct]
  rfl

/-- Witness for C7 on the empty-id config of TestAddInvalidProcess. -/
theorem c7_invalid_config_witness :
    exOk (validateConfig { dummyProcess with id := "" }) = false ∧
    exOk (addProcess (mkRegState none []) { dummyProcess with id := "" }) = false := by
  have h := c7_invalid_config { dummyProcess with id := "" } (Or.inl (by decide))
  exact ⟨h.1, h.2 (mkRegState none [])⟩

/-- Claim C8: GetProcessIDs returns exactly the ids of tasks whose id and
reference match the two globs (an empty glob matches everything), and on
the TestGetProcess registry the three quoted queries return exactly the
listed ids. -/
theorem c8_glob_matching :
    (∀ (st : RegState) (idp refp i : String),
        i ∈ getProcessIDs st idp refp ↔
          ∃ t ∈ st.tasks, t.id = i ∧ matchOrEmpty idp t.id = true ∧
            matchOrEmpty refp t.config.reference = true) ∧
    getProcessIDs globState "foo_*" "" = ["foo_aaa_1", "foo_ccc_3"] ∧
    getProcessIDs globState "" "*_bbb_*" = ["bar_bbb_2"] ∧
    getProcessIDs globState "" ""
      = ["foo_aaa_1", "bar_bbb_2", "foo_ccc_3", "bar_ddd_4"] := by
  refine ⟨?_, by decide, by decide, by decide⟩
  intro st idp refp i
  unfold getProcessIDs
  simp only [List.mem_map, List.mem_filter, Bool.and_eq_true]
  constructor
  · rintro ⟨t, ⟨ht, h1, h2⟩, rfl⟩
    exact ⟨t, ht, rfl, h1, h2⟩
  · rintro ⟨t, ht, rfl, h1, h2⟩
    exact ⟨t, ⟨ht, h1, h2⟩, rfl⟩

/-- Claim C9: a successful AddProcess leaves the new task with order start
when autostart is set and order stop otherwise. -/
theorem c9_autostart_order (st : RegState) (cfg : AppConfig)
    (h : exOk (addProcess st cfg) = true) :
    orderOf (exGet st (addProcess st cfg)) cfg.id =
      some (if cfg.autostart then ProcOrder.start else ProcOrder.stop) := by
  cases ha : addProcess st cfg with
  | error e =>
    rw [ha] at h
    exact absurd h (by simp [exOk])
  | ok st' =>
    have hres := addProcess_ok_orderOf ha
    simpa [exGet] using hres

/-- Witness for C9 on the dummy process, without and with autostart. -/
theorem c9_autostart_order_witness :
    orderOf (exGet (mkRegState none [])
        (addProcess (mkRegState none []) dummyProcess)) "process"
      = some ProcOrder.stop ∧
    orderOf (exGet (mkRegState none [])
        (addProcess (mkRegState none []) { dummyProcess with autostart := true }))
        "process"
      = some ProcOrder.start := by
  refine ⟨?_, ?_⟩
  · exact c9_autostart_order (mkRegState none []) dummyProcess (by decide)
  · exact c9_autostart_order (mkRegState none [])
      { dummyProcess with autostart := true } (by decide)

/-- Claim C10: a reference token whose key part is not the literal word
output is rejected by AddProcess, no matter what the registry holds. -/
theorem c10_nonoutput_key_rejected (st : RegState) (cfg : AppConfig) (io : ConfigIO)
    (pid key oid : String)
    (hin : cfg.input = [io])
    (haddr : io.address = "#" ++ pid ++ ":" ++ key ++ "=" ++ oid)
    (hp : pid.toList.contains ':' = false)
    (hke : key.toList.contains '=' = false)
    (hkey : key ≠ "output")
    (hbf : io.address.toList.contains '\x7b' = false) :
    exOk (addProcess st cfg) = false := by
  cases hcv : configValid cfg with
  | false =>
    have hct : createTask st cfg = .error "invalid config" := by
      unfold createTask validateConfig
      rw [hcv]
      rfl
    simp only [addProcess, hct]
    rfl
  | true =>
    have h1 := createTask_single_exOk st cfg io hin hbf hcv
    rw [haddr, resolveAddressL_badkey st.tasks cfg.id pid key oid hp hke hkey] at h1
    cases hc : createTask st cfg with
    | error e =>
      simp only [addProcess, hc]
      rfl
    | ok p =>
      rw [hc] at h1
      exact absurd h1 (by simp [exOk])

/-- Witness for C10 on the TestAddressReference instance with the key
foobar in place of output. -/
theorem c10_nonoutput_key_rejected_witness :
    exOk (addProcess refState (refProcess2 "#process:foobar=out")) = false := by
  exact c10_nonoutput_key_rejected refState (refProcess2 "#process:foobar=out")
    { id := "in", address := "#process:foobar=out", options := [], cleanup := [] }
    "process" "foobar" "out" (by decide) (by decide) (by decide) (by decide)
    (by decide) (by decide)

end Restream
